import Mathlib

/-!
Shallow embedding of the dashvision inventory/sales reconciliation core.

The definitions below are translated from the repository sources:
`src/api/mercadolivre.py` (order aggregation, pagination, shipment-cost
gathering, financial computation, marketplace stock normalization),
`src/api/amazon.py` (request retry loop, FBA inventory normalization) and
`src/main.py` (conciliation-mapping persistence and the internal-stock
reconciliation join).  Network endpoints are abstracted as function
parameters; pandas DataFrames become lists of records; Python floats
become `Rat`; Python `str[:n]` slicing becomes character-list `take`.
-/

/-- Python `s[:n]` slicing by code points (`title[:70]`, `.str[:70]`). -/
def str_slice (s : String) (n : Nat) : String := ⟨s.data.take n⟩

/-- Error raised by `MercadoLivreAPI._make_request`: the class raises
`MercadoLivreAPIError("Erro na requisição à API")` for HTTP failures and
`MercadoLivreAPIError("Erro de conexão")` for `RequestException`. -/
inductive MercadoLivreAPIError where
  | requestError
  | connectionError
deriving DecidableEq

/-- Error raised by `AmazonAPI._make_request` (same two message shapes). -/
inductive AmazonAPIError where
  | requestError
  | connectionError
deriving DecidableEq

/-- Outcome of one HTTP attempt: a JSON body (abstracted to a `Nat` tag),
an `HTTPError` with a status code, or a `RequestException`. -/
inductive HttpResp where
  | ok (v : Nat)
  | httpErr (code : Nat)
  | connFail
deriving DecidableEq

/-- `MercadoLivreAPI._make_request`, driven by the list of successive HTTP
outcomes the server produces for the successive attempts.  On a 401 the
code calls `token_manager.renew_token()` and recursively re-issues the
request (`return self._make_request(url, params)`), with no retry bound;
any other `HTTPError` raises `MercadoLivreAPIError`.  Token renewal itself
is modelled as succeeding.  The result is instrumented with the number of
requests issued and the number of renewals performed; an exhausted outcome
list is reported as a connection failure. -/
def make_request_ml : List HttpResp → Except MercadoLivreAPIError (Nat × Nat × Nat)
  | [] => .error .connectionError
  | .ok v :: _ => .ok (v, 1, 0)
  | .httpErr code :: rest =>
    if code = 401 then
      match make_request_ml rest with
      | .ok (v, nreq, nren) => .ok (v, nreq + 1, nren + 1)
      | .error e => .error e
    else .error .requestError
  | .connFail :: _ => .error .connectionError

/-- `AmazonAPI._make_request`: identical retry structure, except that both
401 and 403 trigger the renew-and-reissue path. -/
def make_request_amazon : List HttpResp → Except AmazonAPIError (Nat × Nat × Nat)
  | [] => .error .connectionError
  | .ok v :: _ => .ok (v, 1, 0)
  | .httpErr code :: rest =>
    if code = 401 ∨ code = 403 then
      match make_request_amazon rest with
      | .ok (v, nreq, nren) => .ok (v, nreq + 1, nren + 1)
      | .error e => .error e
    else .error .requestError
  | .connFail :: _ => .error .connectionError

/-- One order line item (`item` of `order['order_items']`). -/
structure OrderItem where
  seller_sku : String
  title : String
  quantity : Nat
  unit_price : Rat
deriving DecidableEq

/-- `order['payments'][0]`; `get_sales_data` reads only these two fields. -/
structure Payment where
  order_id : Nat
  status : String
deriving DecidableEq

/-- An order as consumed by `get_sales_data`.  `date_closed` is the raw
closing timestamp (an abstract instant); `shipping_id` is `none` when the
order has no `'shipping'` entry (its line items are then skipped through
the per-order `except KeyError` handler).  `payment0` flattens
`payments[0]`, the only payment record the code reads. -/
structure Order where
  status : String
  date_closed : Int
  paid_amount : Rat
  shipping_id : Option Nat
  payment0 : Payment
  order_items : List OrderItem
deriving DecidableEq

/-- One row of the sales ledger appended to `sales_data`. -/
structure SaleRecord where
  order_id : Nat
  order_status : String
  payment_status : String
  product_name : String
  date_local : Int
  sku : String
  qty : Nat
  unit_price : Rat
  paid_amount : Rat
  paid_amount_calculated_no_ship_cost : Rat
  paid_amount_calculated : Rat
  logistic_cost : Rat
  logistic_type : String
deriving DecidableEq

/-- The `while True` pagination loop of `get_sales_data` (and the same
pattern in `fetch_all_item_ids`): request the page at the current offset
(`limit` is fixed at 50), accumulate the results, stop as soon as a page
has fewer than 50 entries, otherwise advance the offset by 50.  The
upstream is modelled as the list of successive pages it serves; a request
past the end yields an empty page.  Returns the accumulated orders
together with the list of offsets at which requests were issued. -/
def paginate {α : Type} : Nat → List (List α) → List α × List Nat
  | off, [] => ([], [off])
  | off, page :: rest =>
    if page.length < 50 then (page, [off])
    else
      let r := paginate (off + 50) rest
      (page ++ r.1, off :: r.2)

/-- `get_all_shipment_details`: `asyncio.gather` over
`get_shipment_details_async` for each id.  Each per-id lookup either
yields a `(logistic_type, cost)` pair or raises; `gather` without
`return_exceptions` propagates the first exception, so one failing lookup
fails the whole batch. -/
def get_all_shipment_details (fetch : Nat → Except MercadoLivreAPIError (String × Rat)) :
    List Nat → Except MercadoLivreAPIError (List (String × Rat))
  | [] => .ok []
  | i :: rest =>
    match fetch i with
    | .error e => .error e
    | .ok v =>
      match get_all_shipment_details fetch rest with
      | .error e => .error e
      | .ok vs => .ok (v :: vs)

/-- `shipment_dict.get(shipping_id, ("unknown", 0.0))`. -/
def shipment_dict_get (d : List (Nat × (String × Rat))) (k : Nat) : String × Rat :=
  match d.find? (fun p => decide (p.1 = k)) with
  | some p => p.2
  | none => ("unknown", 0)

/-- Per-order body of the `for order in all_orders` loop: re-validate the
localized closing date against the civil bounds (`start_date_brt.date() <=
date_created_brt.date() <= end_date_brt.date()`), then emit one ledger row
per line item, with the refund-aware financial computation of lines
404-419.  `localDate` abstracts `datetime.fromisoformat(...).astimezone
(America/Sao_Paulo).date()`.  An order without a shipping id hits the
`KeyError` handler before any of its rows are appended. -/
def process_order (sdict : List (Nat × (String × Rat))) (localDate : Int → Int)
    (start_d end_d : Int) (o : Order) : List SaleRecord :=
  if start_d ≤ localDate o.date_closed ∧ localDate o.date_closed ≤ end_d then
    match o.shipping_id with
    | none => []
    | some sid =>
      o.order_items.map (fun item =>
        { order_id := o.payment0.order_id
          order_status := o.status
          payment_status := o.payment0.status
          product_name := item.title
          date_local := localDate o.date_closed
          sku := item.seller_sku
          qty := item.quantity
          unit_price := item.unit_price
          paid_amount := o.paid_amount
          paid_amount_calculated_no_ship_cost :=
            if o.status = "partially_refunded" then o.paid_amount
            else item.unit_price * (item.quantity : Rat)
          paid_amount_calculated :=
            if o.status = "partially_refunded" then
              o.paid_amount + (shipment_dict_get sdict sid).2
            else item.unit_price * (item.quantity : Rat) + (shipment_dict_get sdict sid).2
          logistic_cost := (shipment_dict_get sdict sid).2
          logistic_type := (shipment_dict_get sdict sid).1 })
  else []

/-- `MercadoLivreAPI.get_sales_data`: paginate the order search, collect
the distinct shipping ids (`list(set(...))`, modelled order-preserving),
gather the shipment details concurrently, build `shipment_dict` by zipping
ids with results, then run the per-order loop.  The surrounding
`except Exception` returns an empty DataFrame when the gather (or anything
else) raises, so a failed gather yields an empty ledger. -/
def get_sales_data (pages : List (List Order))
    (fetch : Nat → Except MercadoLivreAPIError (String × Rat))
    (localDate : Int → Int) (start_d end_d : Int) : List SaleRecord :=
  let all_orders := (paginate 0 pages).1
  let unique_ids := (all_orders.filterMap (fun o => o.shipping_id)).eraseDups
  match get_all_shipment_details fetch unique_ids with
  | .error _ => []
  | .ok res =>
    all_orders.flatMap (process_order (unique_ids.zip res) localDate start_d end_d)

/-- One persisted row of the `conciliacao_mercos` table (`src/db/models.py`
fields read by `main.py`): warehouse (Mercos) SKU, marketplace SKU, plus
the product name, warehouse label and quantity cached at mapping time. -/
structure ConciliacaoMercos where
  sku_mercos : String
  sku_ml_amazon : String
  produto : String
  deposito_mercos : String
  estoque_mercos : Int
deriving DecidableEq

/-- The save block of `exibir_gestao_estoque` (main.py lines 688-711): in
one transaction, delete the persisted rows whose `sku_mercos` occurs in
the submitted batch (`delete(...).where(sku_mercos.in_(skus_atualizados))`)
and insert every submitted row with a non-empty `sku_ml_amazon`.  The
function maps the pre-save table and the submitted batch to the post-save
table. -/
def save_conciliacao (table rows : List ConciliacaoMercos) : List ConciliacaoMercos :=
  let skus_atualizados := rows.map (fun c => c.sku_mercos)
  let kept := table.filter (fun r => decide (r.sku_mercos ∉ skus_atualizados))
  kept ++ rows.filter (fun c => decide (c.sku_ml_amazon ≠ ""))

/-- One row of the `estoque_mercos` warehouse-stock table as loaded by
`carregar_estoque_interno`. -/
structure EstoqueMercos where
  sku : String
  produto : String
  deposito : String
  quantidade : Int
deriving DecidableEq

/-- One canonical `{SKU, Produto, Depósito, Estoque}` row of the unified
stock view. -/
structure StockRow where
  SKU : String
  Produto : String
  Deposito : String
  Estoque : Int
deriving DecidableEq

/-- `carregar_estoque_interno` (main.py): return empty when either table
is empty; keep only conciliation rows with a non-empty `sku_ml_amazon`;
for each kept row run the nested freshness loop — every warehouse row
whose `sku` equals the row's `sku_mercos` overwrites the row's cached
quantity (the `!=` guard only skips writes that would not change the
value, so the last matching warehouse row wins); finally emit the row
under the marketplace SKU identity. -/
def carregar_estoque_interno (mercos : List EstoqueMercos)
    (conciliacoes : List ConciliacaoMercos) : List StockRow :=
  if mercos = [] then []
  else if conciliacoes = [] then []
  else
    let filtrado := conciliacoes.filter (fun c => decide (c.sku_ml_amazon ≠ ""))
    filtrado.map (fun c =>
      let q := mercos.foldl
        (fun e m => if m.sku = c.sku_mercos then m.quantidade else e) c.estoque_mercos
      { SKU := c.sku_ml_amazon, Produto := c.produto,
        Deposito := c.deposito_mercos, Estoque := q })

/-- A raw quantity cell before `pd.to_numeric(..., errors='coerce')`:
either a numeric value or a non-numeric one (such as the string "N/A"),
which coerces to NaN. -/
inductive RawQty where
  | num (n : Int)
  | na
deriving DecidableEq

/-- `pd.to_numeric(col, errors='coerce').fillna(0).astype(int)` applied to
one cell. -/
def to_numeric_fill0 : RawQty → Int
  | .num n => n
  | .na => 0

/-- One entry of `payload.inventorySummaries` as read by
`AmazonAPI._parse_inventory_data`: `sellerSku`, `productName` (possibly
missing) and `inventoryDetails.fulfillableQuantity`. -/
structure InventorySummary where
  sellerSku : String
  productName : Option String
  fulfillableQuantity : RawQty
deriving DecidableEq

/-- One normalized Amazon stock row (`SKU`, `Nome`, `Estoque`). -/
structure AmazonRow where
  SKU : String
  Nome : String
  Estoque : Int
deriving DecidableEq

/-- `AmazonAPI._parse_inventory_data`: flatten each summary into a row,
coerce `Estoque` with `to_numeric(...).fillna(0).astype(int)` and apply
`df["Nome"].str[:70].fillna("")` to the product name. -/
def parse_inventory_data (raw : List InventorySummary) : List AmazonRow :=
  raw.map (fun r =>
    { SKU := r.sellerSku
      Nome := (r.productName.map (fun s => str_slice s 70)).getD ""
      Estoque := to_numeric_fill0 r.fulfillableQuantity })

/-- One element of the `raw_data` list fed to
`MercadoLivreAPI._create_dataframe` (built by `_process_item_data`): the
SKU may be `None` when neither the variation nor the item carries a
`SELLER_SKU` attribute. -/
structure MLRawItem where
  SKU : Option String
  Nome : String
  Estoque : RawQty
deriving DecidableEq

/-- One normalized Mercado Livre stock row. -/
structure MLStockRow where
  SKU : Option String
  Nome : String
  Estoque : Int
deriving DecidableEq

/-- Recursion core of `drop_duplicates`, structurally recursive on a fuel
argument so that concrete instances evaluate; the fuel is always
instantiated with the list length, which suffices because filtering never
lengthens the tail. -/
def drop_duplicates_aux {α : Type} [DecidableEq α] : Nat → List α → List α
  | _, [] => []
  | 0, _ :: _ => []
  | fuel + 1, x :: xs => x :: drop_duplicates_aux fuel (xs.filter (fun y => decide (y ≠ x)))

/-- `pandas.DataFrame.drop_duplicates()` with default arguments: remove
the rows that are an exact duplicate (all columns equal) of an earlier
row, keeping the first occurrence and the original order. -/
def drop_duplicates {α : Type} [DecidableEq α] (l : List α) : List α :=
  drop_duplicates_aux l.length l

/-- `MercadoLivreAPI._create_dataframe`: coerce the `Estoque` column with
`to_numeric(...).fillna(0).astype(int)`, keep the three columns, and call
`drop_duplicates()` (full-row deduplication). -/
def create_dataframe (raw : List MLRawItem) : List MLStockRow :=
  drop_duplicates (raw.map (fun r =>
    { SKU := r.SKU, Nome := r.Nome, Estoque := to_numeric_fill0 r.Estoque }))

/-- Sample line item used by concrete witness inputs. -/
def sampleItem : OrderItem :=
  { seller_sku := "SKU1", title := "Produto A", quantity := 2, unit_price := 100 }

/-- Sample payment record used by concrete witness inputs. -/
def samplePayment : Payment := { order_id := 11, status := "approved" }

/-- Sample order used by concrete witness inputs. -/
def sampleOrder : Order :=
  { status := "paid", date_closed := 5, paid_amount := 210, shipping_id := some 1,
    payment0 := samplePayment, order_items := [sampleItem] }

/-- C6 counterexample input: the upstream answers 401 twice, then 200. -/
def c6_responses : List HttpResp := [.httpErr 401, .httpErr 401, .ok 5]

/-- C6: the claim says an authorization failure triggers exactly one
credential renewal and one retry, and a second authorization failure
surfaces as a typed error without further retries.  On the response
sequence 401, 401, 200 the client instead issues three requests and two
renewals and returns the final success, refuting the single-retry bound. -/
theorem c6_counterexample :
    make_request_ml c6_responses = .ok (5, 3, 2) ∧ ¬(2 ≤ 1) := by
  exact ⟨rfl, by decide⟩

/-- C6 (amended): on each authorization failure the client renews the
credential and re-issues the request with no bound: `k` consecutive 401s
(or 403s for the Amazon client) followed by a success produce `k` renewals
and `k + 1` requests and still return the success; a non-authorization
HTTP failure surfaces as a typed request error without renewal. -/
theorem c6_unbounded_renew_retry (k v : Nat) :
    make_request_ml (List.replicate k (.httpErr 401) ++ [.ok v]) = .ok (v, k + 1, k) ∧
    make_request_amazon (List.replicate k (.httpErr 403) ++ [.ok v]) = .ok (v, k + 1, k) ∧
    (∀ code rest, code ≠ 401 → make_request_ml (.httpErr code :: rest) =
      .error .requestError) := by
  refine ⟨?_, ?_, ?_⟩
  · induction k with
    | zero => rfl
    | succ n ih =>
      rw [List.replicate_succ, List.cons_append]
      simp [make_request_ml, ih]
  · induction k with
    | zero => rfl
    | succ n ih =>
      rw [List.replicate_succ, List.cons_append]
      simp [make_request_amazon, ih]
  · intro code rest hcode
    simp [make_request_ml, hcode]

/-- C6 witness: the amended statement applied at two consecutive 401s and
the payload tag 5 reproduces the counterexample run. -/
theorem c6_unbounded_renew_retry_witness :
    make_request_ml (List.replicate 2 (.httpErr 401) ++ [.ok 5]) = .ok (5, 3, 2) :=
  (c6_unbounded_renew_retry 2 5).1

/-- C7: the pagination loop stops at the first page shorter than the page
size 50, continues past full pages advancing the offset by 50, and on an
upstream serving pages of sizes 50, 50, 37 it issues exactly the three
requests at offsets 0, 50, 100 and accumulates all 137 raw orders. -/
theorem c7_pagination (p1 p2 p3 : List Order)
    (h1 : p1.length = 50) (h2 : p2.length = 50) (h3 : p3.length = 37) :
    (paginate 0 [p1, p2, p3]).1 = p1 ++ p2 ++ p3 ∧
    (paginate 0 [p1, p2, p3]).1.length = 137 ∧
    (paginate 0 [p1, p2, p3]).2 = [0, 50, 100] ∧
    (∀ (p : List Order) rest off, p.length < 50 → paginate off (p :: rest) = (p, [off])) ∧
    (∀ (p : List Order) rest off, ¬p.length < 50 →
      paginate off (p :: rest) =
        (p ++ (paginate (off + 50) rest).1, off :: (paginate (off + 50) rest).2)) := by
  have hstep : ∀ (p : List Order) rest off, p.length < 50 →
      paginate off (p :: rest) = (p, [off]) := by
    intro p rest off h
    simp [paginate, h]
  have hfull : ∀ (p : List Order) rest off, ¬p.length < 50 →
      paginate off (p :: rest) =
        (p ++ (paginate (off + 50) rest).1, off :: (paginate (off + 50) rest).2) := by
    intro p rest off h
    simp [paginate, h]
  have hrun : paginate 0 [p1, p2, p3] = (p1 ++ (p2 ++ p3), [0, 50, 100]) := by
    rw [hfull p1 [p2, p3] 0 (by omega), hfull p2 [p3] 50 (by omega),
      hstep p3 [] 100 (by omega)]
  refine ⟨?_, ?_, ?_, hstep, hfull⟩
  · rw [hrun, List.append_assoc]
  · rw [hrun]
    simp [List.length_append, h1, h2, h3]
  · rw [hrun]

/-- C7 witness: three concrete pages of sizes 50, 50 and 37. -/
theorem c7_pagination_witness :
    (paginate 0 [List.replicate 50 sampleOrder, List.replicate 50 sampleOrder,
      List.replicate 37 sampleOrder]).1.length = 137 ∧
    (paginate 0 [List.replicate 50 sampleOrder, List.replicate 50 sampleOrder,
      List.replicate 37 sampleOrder]).2 = [0, 50, 100] := by
  have h := c7_pagination (List.replicate 50 sampleOrder) (List.replicate 50 sampleOrder)
    (List.replicate 37 sampleOrder) (by simp) (by simp) (by simp)
  exact ⟨h.2.1, h.2.2.1⟩

/-- When every id's lookup succeeds, the gather returns exactly the list
of fetched values in id order. -/
theorem get_all_shipment_details_ok (fetch : Nat → Except MercadoLivreAPIError (String × Rat))
    (g : Nat → String × Rat) :
    ∀ ids : List Nat, (∀ i ∈ ids, fetch i = .ok (g i)) →
      get_all_shipment_details fetch ids = .ok (ids.map g) := by
  intro ids
  induction ids with
  | nil => intro _; rfl
  | cons j rest ih =>
    intro h
    have hj := h j (List.mem_cons_self j rest)
    have hr := ih (fun i hi => h i (List.mem_cons_of_mem j hi))
    simp [get_all_shipment_details, hj, hr]

/-- When any id's lookup fails, the gather fails as a whole. -/
theorem get_all_shipment_details_error (fetch : Nat → Except MercadoLivreAPIError (String × Rat)) :
    ∀ (ids : List Nat) (i : Nat), i ∈ ids → (∃ er, fetch i = .error er) →
      ∃ e, get_all_shipment_details fetch ids = .error e := by
  intro ids
  induction ids with
  | nil => simp
  | cons j rest ih =>
    intro i hi hf
    obtain ⟨er, her⟩ := hf
    rcases List.mem_cons.mp hi with rfl | hmem
    · exact ⟨er, by simp [get_all_shipment_details, her]⟩
    · cases hfj : fetch j with
      | error e => exact ⟨e, by simp [get_all_shipment_details, hfj]⟩
      | ok v =>
        obtain ⟨e, he⟩ := ih i hmem ⟨er, her⟩
        exact ⟨e, by simp [get_all_shipment_details, hfj, he]⟩

/-- C2 counterexample input: the lookup for shipment id 2 fails. -/
def c2_fetch : Nat → Except MercadoLivreAPIError (String × Rat) :=
  fun i => if i = 2 then .error .requestError else .ok ("me2", 10)

/-- C2 counterexample order: an in-range order whose shipment id is the
failing id 2. -/
def c2_order : Order := { sampleOrder with shipping_id := some 2 }

/-- C2: the claim says that with N unique shipment ids of which k lookups
fail, the resolver still returns N entries mapping the k failed ids to
("unknown", 0.0).  With ids [1, 2] where the lookup of 2 fails (N = 2,
k = 1), `asyncio.gather` instead propagates the exception: the batch
returns no mapping at all, and a sales-data run over an order using the
failing shipment id yields the empty ledger. -/
theorem c2_counterexample :
    get_all_shipment_details c2_fetch [1, 2] = .error .requestError ∧
    get_sales_data [[c2_order]] c2_fetch (fun t => t) 5 5 = [] := by
  exact ⟨rfl, rfl⟩

/-- C2 (amended): given N unique shipment ids, if every lookup succeeds
the batch returns all N fetched (logistic_type, cost) entries, and the
`shipment_dict` built by zipping ids with results has exactly N entries;
if any single lookup fails, the failure propagates out of the gather and
aborts the whole batch (no mapping is produced), instead of resolving the
failed ids to ("unknown", 0.0). -/
theorem c2_gather_all_or_abort (fetch : Nat → Except MercadoLivreAPIError (String × Rat))
    (ids : List Nat) :
    (∀ g : Nat → String × Rat, (∀ i ∈ ids, fetch i = .ok (g i)) →
      get_all_shipment_details fetch ids = .ok (ids.map g) ∧
      (ids.zip (ids.map g)).length = ids.length) ∧
    (∀ i ∈ ids, (∃ er, fetch i = .error er) →
      ∃ e, get_all_shipment_details fetch ids = .error e) := by
  constructor
  · intro g hg
    refine ⟨get_all_shipment_details_ok fetch g ids hg, ?_⟩
    rw [List.length_zip, List.length_map, Nat.min_self]
  · exact fun i hi hf => get_all_shipment_details_error fetch ids i hi hf

/-- C2 witness: a two-id batch whose lookups both succeed returns both
entries. -/
theorem c2_gather_all_or_abort_witness :
    get_all_shipment_details c2_fetch [1, 3] = .ok [("me2", 10), ("me2", 10)] ∧
    ([1, 3].zip ([1, 3].map (fun _ => (("me2", 10) : String × Rat)))).length = 2 :=
  (c2_gather_all_or_abort c2_fetch [1, 3]).1 (fun _ => ("me2", 10))
    (by intro i hi; fin_cases hi <;> rfl)

/-- C4 counterexample pre-save table: warehouse SKU m1 already mapped to
marketplace SKU X. -/
def c4_table : List ConciliacaoMercos := [⟨"m1", "X", "p1", "d", 1⟩]

/-- C4 counterexample submitted batch: two different warehouse SKUs both
select marketplace SKU X in the same form submission. -/
def c4_rows : List ConciliacaoMercos := [⟨"m2", "X", "p2", "d", 2⟩, ⟨"m3", "X", "p3", "d", 3⟩]

/-- C4: the claim says each save replaces the full persisted mapping set
and leaves every non-empty marketplace SKU mapped to at most one warehouse
SKU.  A save of rows for warehouse SKUs m2 and m3 over a table holding a
row for m1 deletes nothing of m1 (only rows whose warehouse SKU occurs in
the submitted batch are deleted — not a full replace), and afterwards the
marketplace SKU X is mapped from the three distinct warehouse SKUs m1, m2
and m3. -/
theorem c4_counterexample :
    save_conciliacao c4_table c4_rows =
      [⟨"m1", "X", "p1", "d", 1⟩, ⟨"m2", "X", "p2", "d", 2⟩, ⟨"m3", "X", "p3", "d", 3⟩] ∧
    (⟨"m1", "X", "p1", "d", 1⟩ : ConciliacaoMercos) ∈ save_conciliacao c4_table c4_rows ∧
    ((save_conciliacao c4_table c4_rows).filter
      (fun r => decide (r.sku_ml_amazon = "X"))).length = 3 := by
  refine ⟨rfl, ?_, rfl⟩
  rw [show save_conciliacao c4_table c4_rows =
    [⟨"m1", "X", "p1", "d", 1⟩, ⟨"m2", "X", "p2", "d", 2⟩, ⟨"m3", "X", "p3", "d", 3⟩] from rfl]
  exact List.mem_cons_self _ _

/-- C4 (amended): a save keeps exactly the pre-save rows whose warehouse
SKU does not occur in the submitted batch, plus the submitted rows with a
non-empty marketplace SKU, inside one transaction; it is a selective
per-warehouse-SKU replace, and marketplace-SKU uniqueness is not enforced
by the operation. -/
theorem c4_save_membership (table rows : List ConciliacaoMercos) (r : ConciliacaoMercos) :
    r ∈ save_conciliacao table rows ↔
      (r ∈ table ∧ r.sku_mercos ∉ rows.map (fun c => c.sku_mercos)) ∨
      (r ∈ rows ∧ r.sku_ml_amazon ≠ "") := by
  simp [save_conciliacao, List.mem_append, List.mem_filter]

/-- C4 witness: the stale row for m1 is still a member after the save,
through the amended characterization. -/
theorem c4_save_membership_witness :
    (⟨"m1", "X", "p1", "d", 1⟩ : ConciliacaoMercos) ∈ save_conciliacao c4_table c4_rows :=
  (c4_save_membership c4_table c4_rows _).mpr (Or.inl ⟨by decide, by decide⟩)

/-- A fold of the freshness-overwrite step over warehouse rows none of
which matches the key leaves the accumulator unchanged. -/
theorem foldl_quantidade_no_match (l : List EstoqueMercos) (key : String) (e : Int)
    (h : l.filter (fun x => decide (x.sku = key)) = []) :
    l.foldl (fun acc m => if m.sku = key then m.quantidade else acc) e = e := by
  induction l generalizing e with
  | nil => rfl
  | cons m rest ih =>
    by_cases hm : m.sku = key
    · exfalso
      simp [List.filter_cons, hm] at h
    · simp only [List.foldl, if_neg hm]
      apply ih
      simpa [List.filter_cons, hm] using h

/-- A fold of the freshness-overwrite step over warehouse rows exactly one
of which matches the key returns that row's live quantity. -/
theorem foldl_quantidade_single (l : List EstoqueMercos) (key : String) (e : Int)
    (m : EstoqueMercos) (h : l.filter (fun x => decide (x.sku = key)) = [m]) :
    l.foldl (fun acc x => if x.sku = key then x.quantidade else acc) e = m.quantidade := by
  induction l generalizing e with
  | nil => exact absurd h (by simp)
  | cons x rest ih =>
    by_cases hx : x.sku = key
    · have hxm : x = m ∧ rest.filter (fun y => decide (y.sku = key)) = [] := by
        simpa [List.filter_cons, hx] using h
      obtain ⟨rfl, hrest⟩ := hxm
      simp only [List.foldl, if_pos hx]
      exact foldl_quantidade_no_match rest key _ hrest
    · simp only [List.foldl, if_neg hx]
      apply ih
      simpa [List.filter_cons, hx] using h

/-- C5: for every reconciled mapping row (non-empty marketplace SKU) whose
warehouse counterpart exists and is unique, the unified view contains a
row under the marketplace SKU identity carrying the counterpart's live
warehouse quantity, regardless of the cached quantity. -/
theorem c5_freshness (mercos : List EstoqueMercos) (conciliacoes : List ConciliacaoMercos)
    (c : ConciliacaoMercos) (m : EstoqueMercos)
    (hc : c ∈ conciliacoes) (hne : c.sku_ml_amazon ≠ "")
    (hm : mercos.filter (fun x => decide (x.sku = c.sku_mercos)) = [m]) :
    ({ SKU := c.sku_ml_amazon, Produto := c.produto, Deposito := c.deposito_mercos,
       Estoque := m.quantidade } : StockRow) ∈ carregar_estoque_interno mercos conciliacoes := by
  have hmer : mercos ≠ [] := by
    rintro rfl
    simp at hm
  have hcon : conciliacoes ≠ [] := by
    rintro rfl
    simp at hc
  unfold carregar_estoque_interno
  rw [if_neg hmer, if_neg hcon]
  apply List.mem_map.mpr
  refine ⟨c, List.mem_filter.mpr ⟨hc, by simpa using hne⟩, ?_⟩
  rw [foldl_quantidade_single mercos c.sku_mercos c.estoque_mercos m hm]

/-- C5 witness warehouse table: live quantity 7 for SKU M1. -/
def c5_mercos : List EstoqueMercos := [⟨"M1", "Produto C", "Deposito", 7⟩]

/-- C5 witness mapping table: cached quantity 10 for the same SKU,
reconciled to marketplace SKU X. -/
def c5_conciliacoes : List ConciliacaoMercos := [⟨"M1", "X", "Produto C", "Deposito", 10⟩]

/-- C5 witness: cached quantity 10, live quantity 7 — the unified row
under the marketplace SKU reports 7. -/
theorem c5_freshness_witness :
    ({ SKU := "X", Produto := "Produto C", Deposito := "Deposito", Estoque := 7 } : StockRow) ∈
      carregar_estoque_interno c5_mercos c5_conciliacoes :=
  c5_freshness c5_mercos c5_conciliacoes ⟨"M1", "X", "Produto C", "Deposito", 10⟩
    ⟨"M1", "Produto C", "Deposito", 7⟩ (by decide) (by decide) (by decide)

/-- Slicing a string to at most `n` code points yields length at most `n`. -/
theorem str_slice_length_le (s : String) (n : Nat) : (str_slice s n).length ≤ n := by
  have h : (str_slice s n).length = (s.data.take n).length := rfl
  rw [h, List.length_take]
  exact Nat.min_le_left _ _

/-- C8 counterexample payload row: a numeric but negative quantity. -/
def c8_row : InventorySummary := ⟨"SKU-NEG", some "Produto D", .num (-3)⟩

/-- C8: the claim says every row's quantity is coerced to a non-negative
integer.  The coercion `to_numeric(...).fillna(0).astype(int)` only maps
non-numeric cells to 0; a numeric quantity of -3 passes through unchanged,
so the output row carries the negative quantity -3. -/
theorem c8_counterexample :
    parse_inventory_data [c8_row] = [⟨"SKU-NEG", "Produto D", -3⟩] ∧ ((-3 : Int) < 0) := by
  constructor
  · decide
  · decide

/-- C8 (amended): each quantity is coerced to an integer with non-numeric
cells (such as "N/A") normalized to 0 — hence the output is non-negative
whenever every numeric input is non-negative — and each product name is
truncated to at most 70 characters. -/
theorem c8_normalize (raw : List InventorySummary) :
    (∀ row ∈ parse_inventory_data raw, row.Nome.length ≤ 70) ∧
    (∀ r ∈ raw, r.fulfillableQuantity = .na →
      ({ SKU := r.sellerSku, Nome := (r.productName.map (fun s => str_slice s 70)).getD "",
         Estoque := 0 } : AmazonRow) ∈ parse_inventory_data raw) ∧
    ((∀ r ∈ raw, ∀ n, r.fulfillableQuantity = .num n → 0 ≤ n) →
      ∀ row ∈ parse_inventory_data raw, 0 ≤ row.Estoque) := by
  refine ⟨?_, ?_, ?_⟩
  · intro row hrow
    obtain ⟨r, _, rfl⟩ := List.mem_map.mp hrow
    cases hp : r.productName with
    | none => simp [hp]
    | some s =>
      simp only [hp, Option.map_some, Option.getD_some]
      exact str_slice_length_le s 70
  · intro r hr hna
    apply List.mem_map.mpr
    exact ⟨r, hr, by simp [hna, to_numeric_fill0]⟩
  · intro hpos row hrow
    obtain ⟨r, hr, rfl⟩ := List.mem_map.mp hrow
    cases hq : r.fulfillableQuantity with
    | num n =>
      simp only [hq, to_numeric_fill0]
      exact hpos r hr n hq
    | na => simp [hq, to_numeric_fill0]

/-- C8 witness payload row: the quantity cell is the non-numeric "N/A". -/
def c8_na_row : InventorySummary := ⟨"SKU-NA", some "Produto E", .na⟩

/-- C8 witness: a payload row with quantity "N/A" normalizes to quantity 0. -/
theorem c8_normalize_witness :
    ({ SKU := "SKU-NA", Nome := "Produto E", Estoque := 0 } : AmazonRow) ∈
      parse_inventory_data [c8_na_row] := by
  have h := (c8_normalize [c8_na_row]).2.1 c8_na_row (List.mem_cons_self _ _) rfl
  have heq : ({ SKU := c8_na_row.sellerSku,
                Nome := (c8_na_row.productName.map (fun s => str_slice s 70)).getD "",
                Estoque := 0 } : AmazonRow) =
      { SKU := "SKU-NA", Nome := "Produto E", Estoque := 0 } := by decide
  exact heq ▸ h

/-- Membership in `drop_duplicates_aux` coincides with membership in the
input once the fuel covers the input length. -/
theorem drop_duplicates_aux_mem {α : Type} [DecidableEq α] :
    ∀ (fuel : Nat) (l : List α), l.length ≤ fuel →
      ∀ a : α, (a ∈ drop_duplicates_aux fuel l ↔ a ∈ l) := by
  intro fuel
  induction fuel with
  | zero =>
    intro l hl a
    cases l with
    | nil => simp [drop_duplicates_aux]
    | cons x xs => simp at hl
  | succ n ih =>
    intro l hl a
    cases l with
    | nil => simp [drop_duplicates_aux]
    | cons x xs =>
      have hfil : (xs.filter (fun y => decide (y ≠ x))).length ≤ n := by
        have h1 : (xs.filter (fun y => decide (y ≠ x))).length ≤ xs.length :=
          List.length_filter_le _ _
        have h2 : xs.length ≤ n := by simpa using hl
        omega
      rw [show drop_duplicates_aux (n + 1) (x :: xs) =
        x :: drop_duplicates_aux n (xs.filter (fun y => decide (y ≠ x))) from rfl]
      rw [List.mem_cons, List.mem_cons, ih _ hfil a, List.mem_filter]
      simp only [decide_eq_true_iff]
      by_cases hax : a = x
      · simp [hax]
      · simp [hax]

/-- `drop_duplicates_aux` output has no duplicate rows once the fuel
covers the input length. -/
theorem drop_duplicates_aux_nodup {α : Type} [DecidableEq α] :
    ∀ (fuel : Nat) (l : List α), l.length ≤ fuel →
      (drop_duplicates_aux fuel l).Nodup := by
  intro fuel
  induction fuel with
  | zero =>
    intro l hl
    cases l with
    | nil => simp [drop_duplicates_aux]
    | cons x xs => simp at hl
  | succ n ih =>
    intro l hl
    cases l with
    | nil => simp [drop_duplicates_aux]
    | cons x xs =>
      have hfil : (xs.filter (fun y => decide (y ≠ x))).length ≤ n := by
        have h1 : (xs.filter (fun y => decide (y ≠ x))).length ≤ xs.length :=
          List.length_filter_le _ _
        have h2 : xs.length ≤ n := by simpa using hl
        omega
      rw [show drop_duplicates_aux (n + 1) (x :: xs) =
        x :: drop_duplicates_aux n (xs.filter (fun y => decide (y ≠ x))) from rfl]
      rw [List.nodup_cons]
      refine ⟨fun hx => ?_, ih _ hfil⟩
      rw [drop_duplicates_aux_mem n _ hfil x, List.mem_filter] at hx
      simp at hx

/-- C9 counterexample payload: two rows with the same SKU but different
quantities. -/
def c9_raw : List MLRawItem := [⟨some "A", "Produto F", .num 1⟩, ⟨some "A", "Produto F", .num 2⟩]

/-- C9: the claim says rows sharing a SKU are collapsed to a single row,
the last-seen one.  `drop_duplicates()` with default arguments removes
only fully identical rows and keeps the first occurrence, so two rows with
SKU "A" and different quantities both survive: the output has two rows for
that SKU, and the first-seen row is still present. -/
theorem c9_counterexample :
    create_dataframe c9_raw =
      [⟨some "A", "Produto F", 1⟩, ⟨some "A", "Produto F", 2⟩] ∧
    ((create_dataframe c9_raw).filter (fun r => decide (r.SKU = some "A"))).length = 2 := by
  exact ⟨rfl, rfl⟩

/-- C9 (amended): `_create_dataframe` deduplicates only exact duplicate
rows (all of SKU, name and quantity equal), keeping the first occurrence:
the output is duplicate-free as a row set and contains exactly the rows of
the coerced input; rows sharing a SKU but differing elsewhere are all
retained. -/
theorem c9_dedup_full_rows (raw : List MLRawItem) :
    (create_dataframe raw).Nodup ∧
    (∀ r : MLStockRow, r ∈ create_dataframe raw ↔
      r ∈ raw.map (fun x =>
        ({ SKU := x.SKU, Nome := x.Nome, Estoque := to_numeric_fill0 x.Estoque } : MLStockRow))) := by
  constructor
  · exact drop_duplicates_aux_nodup _ _ (le_refl _)
  · intro r
    exact drop_duplicates_aux_mem _ _ (le_refl _) r

/-- C9 witness: both distinct rows sharing SKU "A" are members of the
output, through the amended characterization. -/
theorem c9_dedup_full_rows_witness :
    (⟨some "A", "Produto F", 1⟩ : MLStockRow) ∈ create_dataframe c9_raw ∧
    (⟨some "A", "Produto F", 2⟩ : MLStockRow) ∈ create_dataframe c9_raw :=
  ⟨((c9_dedup_full_rows c9_raw).2 _).mpr (by decide),
   ((c9_dedup_full_rows c9_raw).2 _).mpr (by decide)⟩

/-- Every ledger row of `get_sales_data` is produced by the per-order
processing of some fetched order, against the gathered shipment dict. -/
theorem mem_get_sales_data {pages : List (List Order)}
    {fetch : Nat → Except MercadoLivreAPIError (String × Rat)}
    {localDate : Int → Int} {start_d end_d : Int} {r : SaleRecord}
    (hr : r ∈ get_sales_data pages fetch localDate start_d end_d) :
    ∃ (sdict : List (Nat × (String × Rat))) (o : Order),
      r ∈ process_order sdict localDate start_d end_d o := by
  simp only [get_sales_data] at hr
  split at hr
  · exact absurd hr (List.not_mem_nil r)
  · obtain ⟨o, _, hro⟩ := List.mem_flatMap.mp hr
    exact ⟨_, o, hro⟩

/-- Field-level specification of every row emitted by `process_order`:
the localized date lies within the civil bounds, the no-shipping total is
`paid_amount` exactly for partially refunded orders and
`unit_price * quantity` exactly otherwise, and the with-shipping total is
the no-shipping total plus the logistic cost. -/
theorem process_order_spec {sdict : List (Nat × (String × Rat))} {localDate : Int → Int}
    {start_d end_d : Int} {o : Order} {r : SaleRecord}
    (h : r ∈ process_order sdict localDate start_d end_d o) :
    (start_d ≤ r.date_local ∧ r.date_local ≤ end_d) ∧
    (r.order_status = "partially_refunded" →
      r.paid_amount_calculated_no_ship_cost = r.paid_amount) ∧
    (r.order_status ≠ "partially_refunded" →
      r.paid_amount_calculated_no_ship_cost = r.unit_price * (r.qty : Rat)) ∧
    r.paid_amount_calculated = r.paid_amount_calculated_no_ship_cost + r.logistic_cost := by
  unfold process_order at h
  split at h
  next hd =>
    split at h
    next => exact absurd h (List.not_mem_nil r)
    next sid hsid =>
      obtain ⟨item, hitem, rfl⟩ := List.mem_map.mp h
      by_cases hs : o.status = "partially_refunded"
      · exact ⟨⟨hd.1, hd.2⟩, fun _ => by simp [hs], fun hne => absurd hs hne, by simp [hs]⟩
      · exact ⟨⟨hd.1, hd.2⟩, fun habs => absurd habs hs, fun _ => by simp [hs], by simp [hs]⟩
  next hd => exact absurd h (List.not_mem_nil r)

/-- C1: for every emitted sales record, if the order status is
partially_refunded the record's no-shipping computed total equals the
order's paid_amount (copied into the record), regardless of
unit_price * quantity; for any other status it equals
unit_price * quantity exactly. -/
theorem c1_refund_aware_no_ship (pages : List (List Order))
    (fetch : Nat → Except MercadoLivreAPIError (String × Rat))
    (localDate : Int → Int) (start_d end_d : Int) :
    ∀ r ∈ get_sales_data pages fetch localDate start_d end_d,
      (r.order_status = "partially_refunded" →
        r.paid_amount_calculated_no_ship_cost = r.paid_amount) ∧
      (r.order_status ≠ "partially_refunded" →
        r.paid_amount_calculated_no_ship_cost = r.unit_price * (r.qty : Rat)) := by
  intro r hr
  obtain ⟨sdict, o, h⟩ := mem_get_sales_data hr
  exact ⟨(process_order_spec h).2.1, (process_order_spec h).2.2.1⟩

/-- C3: every record in the output ledger has a localized closing date
within the original civil bounds, and any order whose localized closing
date falls outside the bounds contributes no records at all. -/
theorem c3_date_revalidation (pages : List (List Order))
    (fetch : Nat → Except MercadoLivreAPIError (String × Rat))
    (localDate : Int → Int) (start_d end_d : Int) :
    (∀ r ∈ get_sales_data pages fetch localDate start_d end_d,
      start_d ≤ r.date_local ∧ r.date_local ≤ end_d) ∧
    (∀ (sdict : List (Nat × (String × Rat))) (o : Order),
      ¬(start_d ≤ localDate o.date_closed ∧ localDate o.date_closed ≤ end_d) →
      process_order sdict localDate start_d end_d o = []) := by
  constructor
  · intro r hr
    obtain ⟨sdict, o, h⟩ := mem_get_sales_data hr
    exact (process_order_spec h).1
  · intro sdict o hout
    unfold process_order
    rw [if_neg hout]

/-- C10: for every emitted sales record, regardless of order status, the
with-shipping computed total equals the no-shipping computed total plus
the record's logistic cost, exactly. -/
theorem c10_with_ship_equation (pages : List (List Order))
    (fetch : Nat → Except MercadoLivreAPIError (String × Rat))
    (localDate : Int → Int) (start_d end_d : Int) :
    ∀ r ∈ get_sales_data pages fetch localDate start_d end_d,
      r.paid_amount_calculated = r.paid_amount_calculated_no_ship_cost + r.logistic_cost := by
  intro r hr
  obtain ⟨sdict, o, h⟩ := mem_get_sales_data hr
  exact (process_order_spec h).2.2.2

/-- Witness order closed in range with status paid: unit price 100,
quantity 2, shipment id 1 (logistic cost 10). -/
def w_order_paid : Order :=
  { status := "paid", date_closed := 5, paid_amount := 210, shipping_id := some 1,
    payment0 := ⟨11, "approved"⟩, order_items := [⟨"SKU1", "Produto A", 2, 100⟩] }

/-- Witness order closed in range with status partially_refunded:
paid_amount 150, shipment id 2 (logistic cost 5). -/
def w_order_refunded : Order :=
  { status := "partially_refunded", date_closed := 5, paid_amount := 150,
    shipping_id := some 2, payment0 := ⟨12, "approved"⟩,
    order_items := [⟨"SKU2", "Produto B", 1, 180⟩] }

/-- Witness shipment lookup: id 1 costs 10, other ids cost 5. -/
def w_fetch : Nat → Except MercadoLivreAPIError (String × Rat) :=
  fun i => if i = 1 then .ok ("fulfillment", 10) else .ok ("xd_drop_off", 5)

/-- Ledger row produced for the paid witness order: no-shipping total
100 * 2 = 200, with-shipping total 210. -/
def w_rec_paid : SaleRecord :=
  { order_id := 11, order_status := "paid", payment_status := "approved",
    product_name := "Produto A", date_local := 5, sku := "SKU1", qty := 2,
    unit_price := 100, paid_amount := 210,
    paid_amount_calculated_no_ship_cost := 200, paid_amount_calculated := 210,
    logistic_cost := 10, logistic_type := "fulfillment" }

/-- Ledger row produced for the partially refunded witness order:
no-shipping total 150 (the order's paid_amount), with-shipping total 155. -/
def w_rec_refunded : SaleRecord :=
  { order_id := 12, order_status := "partially_refunded", payment_status := "approved",
    product_name := "Produto B", date_local := 5, sku := "SKU2", qty := 1,
    unit_price := 180, paid_amount := 150,
    paid_amount_calculated_no_ship_cost := 150, paid_amount_calculated := 155,
    logistic_cost := 5, logistic_type := "xd_drop_off" }

/-- Concrete evaluation of the whole pipeline on the two witness orders
(the end-to-end scenario of the specification). -/
theorem w_ledger_eval :
    get_sales_data [[w_order_paid, w_order_refunded]] w_fetch (fun t => t) 5 5 =
      [w_rec_paid, w_rec_refunded] := by
  with_unfolding_all rfl

/-- C1 witness: the partially refunded record of the concrete run. -/
theorem c1_refund_aware_no_ship_witness :
    (w_rec_refunded.order_status = "partially_refunded" →
      w_rec_refunded.paid_amount_calculated_no_ship_cost = w_rec_refunded.paid_amount) ∧
    (w_rec_refunded.order_status ≠ "partially_refunded" →
      w_rec_refunded.paid_amount_calculated_no_ship_cost =
        w_rec_refunded.unit_price * (w_rec_refunded.qty : Rat)) := by
  apply c1_refund_aware_no_ship [[w_order_paid, w_order_refunded]] w_fetch (fun t => t) 5 5
    w_rec_refunded
  rw [w_ledger_eval]
  exact List.mem_cons_of_mem _ (List.mem_cons_self _ _)

/-- C3 witness: the paid record of the concrete run has its localized
date within the requested single-day window. -/
theorem c3_date_revalidation_witness :
    (5 : Int) ≤ w_rec_paid.date_local ∧ w_rec_paid.date_local ≤ (5 : Int) := by
  apply (c3_date_revalidation [[w_order_paid, w_order_refunded]] w_fetch (fun t => t) 5 5).1
    w_rec_paid
  rw [w_ledger_eval]
  exact List.mem_cons_self _ _

/-- C10 witness: 210 = 200 + 10 on the paid record of the concrete run. -/
theorem c10_with_ship_equation_witness :
    w_rec_paid.paid_amount_calculated =
      w_rec_paid.paid_amount_calculated_no_ship_cost + w_rec_paid.logistic_cost := by
  apply c10_with_ship_equation [[w_order_paid, w_order_refunded]] w_fetch (fun t => t) 5 5
    w_rec_paid
  rw [w_ledger_eval]
  exact List.mem_cons_self _ _
